import Mathlib

/-
Verification of the MediChat Pro retrieval-augmented chat application.

The application (main.py, app/chat_utils.py, app/vectorstore_utils.py) wires
together black-box services: PDF text extraction, a text splitter, a FAISS
vector index built over an embeddings API, and a hosted LLM generation API.
We embed the application's own logic shallowly: the black boxes are function
parameters, session state is a record, and the externally observable actions
of a handler (calls to the black boxes, user-facing warnings, errors and
success banners) are collected into an explicit event trace.
-/

namespace MediChat

/-- A retrieved document as the chat handler consumes it: only its
page_content field is read (main.py line 142). -/
structure Doc where
  page_content : String
deriving DecidableEq

/-- An uploaded file: the handler reads its name (for the warning message,
main.py line 102) and passes the whole file to the extraction black box.
The data field stands for the file's bytes. -/
structure File where
  name : String
  data : String
deriving DecidableEq

/-- A message record appended to the session log, with exactly the three
fields of the dict literals at main.py lines 134 and 162. -/
structure Message where
  role : String
  content : String
  timestamp : String
deriving DecidableEq

/-- The session state: the message log (st.session_state["messages"]) and the
single optional vector-index reference (st.session_state["vectorstore"]),
main.py lines 79-83. The index type is abstract: FAISS is a black box. -/
structure SessionState (Index : Type) where
  messages : List Message
  vectorstore : Option Index
deriving DecidableEq

/-- Externally observable actions of a handler: calls into the black boxes
and user-facing status messages, in the order the script performs them. -/
inductive Event (Index : Type) where
  | extractCall (f : File)
  | warning (msg : String)
  | splitCall (text : String)
  | indexCall (chunks : List String)
  | success (msg : String)
  | error (msg : String)
  | simSearch (query : String) (k : Nat)
  | llmCall (prompt : String)
deriving DecidableEq

namespace Event

def isExtractCall {Index : Type} : Event Index → Bool
  | .extractCall _ => true
  | _ => false

def isWarning {Index : Type} : Event Index → Bool
  | .warning _ => true
  | _ => false

def isSplitCall {Index : Type} : Event Index → Bool
  | .splitCall _ => true
  | _ => false

def isIndexCall {Index : Type} : Event Index → Bool
  | .indexCall _ => true
  | _ => false

def isSuccess {Index : Type} : Event Index → Bool
  | .success _ => true
  | _ => false

def isError {Index : Type} : Event Index → Bool
  | .error _ => true
  | _ => false

def isSimSearch {Index : Type} : Event Index → Bool
  | .simSearch _ _ => true
  | _ => false

def isLlmCall {Index : Type} : Event Index → Bool
  | .llmCall _ => true
  | _ => false

end Event

/-- Embeds app/vectorstore_utils.py, create_faiss_index: a single delegated
call FAISS.from_texts(texts, embeddings); from_texts is the black box
(embeddings configuration included). -/
def create_faiss_index {Index : Type} (from_texts : List String → Index)
    (texts : List String) : Index :=
  from_texts texts

/-- Embeds app/vectorstore_utils.py, retrieve_relevant_docs: one delegated
call vectorstore.similarity_search(query, k=k), with k defaulting to 4. -/
def retrieve_relevant_docs {Index : Type}
    (similarity_search : Index → String → Nat → List Doc)
    (vectorstore : Index) (query : String) (k : Nat := 4) : List Doc :=
  similarity_search vectorstore query k

/-- Embeds the prompt combination inside app/chat_utils.py,
generate_response: prompt = system_prompt, and if user_prompt is truthy
(a non-None, non-empty string) then "\nUser: " and the user_prompt are
appended. -/
def combined_prompt (system_prompt : String) (user_prompt : Option String) :
    String :=
  match user_prompt with
  | some up => if up = "" then system_prompt else
      system_prompt ++ "\nUser: " ++ up
  | none => system_prompt

/-- Embeds app/chat_utils.py, generate_response: builds the combined prompt
and passes it as the contents of one client.models.generate_content call
(the black box generate_content), returning the response text unmodified. -/
def generate_response (generate_content : String → String)
    (system_prompt : String) (user_prompt : Option String := none) : String :=
  generate_content (combined_prompt system_prompt user_prompt)

/-- The fixed text of the f-string at main.py lines 145-155, before the
interpolated context. -/
def systemPromptPre : String :=
  "You are MediChat Pro, an intelligent medical document assistant.\nBased on the following medical documents, provide accurate and helpful answers.\nIf the information is not in the documents, clearly state that.\nWhen answering, take help from the LLM and give a detailed medical explanation.\n\nMedical Documents:\n"

/-- The fixed text of the f-string between the context and the question. -/
def systemPromptMid : String := "\n\nUser Question: "

/-- The fixed text of the f-string after the question. -/
def systemPromptPost : String := "\n\nAnswer:"

/-- The f-string at main.py lines 145-155: fixed instructions, then the
context block, then the user question, then the answer cue. -/
def build_system_prompt (context question : String) : String :=
  systemPromptPre ++ context ++ systemPromptMid ++ question ++ systemPromptPost

/-- The warning text of main.py line 102 for a file yielding no text. -/
def noTextWarning (f : File) : String :=
  "⚠️ No text extracted from " ++ f.name

/-- The truthiness test "if text.strip():" of main.py line 99: stripping
leading and trailing whitespace leaves a non-empty string exactly when the
text has at least one non-whitespace character. -/
def strip_truthy (text : String) : Bool :=
  text.data.any (fun c => !c.isWhitespace)

/-- The kept texts of the extraction loop at main.py lines 96-102: the
extracted text of each uploaded file, in upload order, keeping exactly the
texts whose strip() is non-empty. -/
def all_texts_of (extract_text_from_pdf : File → String) (files : List File) :
    List String :=
  (files.map extract_text_from_pdf).filter (fun t => strip_truthy t)

/-- The chunk list of main.py lines 106-108: for each kept text in order,
chunks.extend(splitter.split_text(text)). Depends only on the uploaded
files, the extraction black box and the splitter. -/
def chunks_of (extract_text_from_pdf : File → String)
    (split_text : String → List String) (files : List File) : List String :=
  (all_texts_of extract_text_from_pdf files).foldl
    (fun chunks text => chunks ++ split_text text) []

/-- The events of the extraction loop at main.py lines 97-102: each file is
passed to the extraction black box in upload order, and a file whose text
strips to empty draws a warning naming it, after which the loop continues. -/
def extractEvents {Index : Type} (extract_text_from_pdf : File → String)
    (files : List File) : List (Event Index) :=
  (files.map (fun f =>
    Event.extractCall f ::
      (if strip_truthy (extract_text_from_pdf f) then
        ([] : List (Event Index))
      else [Event.warning (noTextWarning f)]))).flatten

/-- The error text of main.py line 113. -/
def noValidTextError : String := "❌ No valid text found in uploaded documents."

/-- The success text of main.py line 110. -/
def processedSuccess : String := "✅ Documents processed successfully!"

/-- Embeds the Process Documents handler, main.py lines 95-113: extract every
uploaded file (warning on the all-whitespace ones), then, if any text was
kept, split each kept text, build one FAISS index from the full chunk list
and store it in the session's vectorstore slot with a success banner;
otherwise show an error and leave the state alone. -/
def process_documents {Index : Type} (extract_text_from_pdf : File → String)
    (split_text : String → List String) (from_texts : List String → Index)
    (files : List File) (st : SessionState Index) :
    SessionState Index × List (Event Index) :=
  let all_texts := all_texts_of extract_text_from_pdf files
  if all_texts.isEmpty then
    (st, extractEvents extract_text_from_pdf files ++
      [Event.error noValidTextError])
  else
    let chunks := chunks_of extract_text_from_pdf split_text files
    ({ st with
        vectorstore := some (create_faiss_index from_texts chunks) },
      extractEvents extract_text_from_pdf files ++
        all_texts.map Event.splitCall ++
        [Event.indexCall chunks, Event.success processedSuccess])

/-- Embeds the Clear Chat handler, main.py lines 115-118: the message log is
set to the empty list; nothing else is assigned. -/
def clear_chat {Index : Type} (st : SessionState Index) : SessionState Index :=
  { st with messages := [] }

/-- Embeds the session-state initialization at main.py lines 79-83: in a
fresh session neither key is present, so messages is set to the empty list
and vectorstore to None. -/
def init_session_state (Index : Type) : SessionState Index :=
  { messages := [], vectorstore := none }

/-- The context block of main.py line 142: the page_content of each
retrieved doc joined by blank lines ("\n\n".join). -/
def context_of (relevant_docs : List Doc) : String :=
  String.intercalate "\n\n" (relevant_docs.map Doc.page_content)

/-- The warning text of main.py line 164 shown when no index is present. -/
def noIndexWarning : String := "⚠️ Please upload and process documents first!"

/-- Embeds the chat input handler, main.py lines 132-164: append the user
message; if the vectorstore reference is set, retrieve relevant docs with
the question as the query (default k), join their page_content with blank
lines into the context, format the system prompt, call generate_response
with no user_prompt, and append the assistant message; otherwise only warn. -/
def chat_handler {Index : Type}
    (similarity_search : Index → String → Nat → List Doc)
    (generate_content : String → String) (prompt timestamp : String)
    (st : SessionState Index) : SessionState Index × List (Event Index) :=
  let st1 : SessionState Index :=
    { st with messages := st.messages ++ [⟨"user", prompt, timestamp⟩] }
  match st.vectorstore with
  | some vs =>
      let relevant_docs := retrieve_relevant_docs similarity_search vs prompt
      let context := context_of relevant_docs
      let system_prompt := build_system_prompt context prompt
      let response := generate_response generate_content system_prompt
      ({ st1 with
          messages := st1.messages ++ [⟨"assistant", response, timestamp⟩] },
        [Event.simSearch prompt 4,
         Event.llmCall (combined_prompt system_prompt none)])
  | none =>
      (st1, [Event.warning noIndexWarning])

/-!
Helper lemmas.
-/

/-- The accumulator of String.intercalate.go stays a leading block of the
result. -/
theorem intercalate_go_acc (sep : String) :
    ∀ (l : List String) (acc : String),
      ∃ r, String.intercalate.go acc sep l = acc ++ r := by
  intro l
  induction l with
  | nil => exact fun acc => ⟨"", (String.append_empty acc).symm⟩
  | cons y t ih =>
    intro acc
    obtain ⟨r, hr⟩ := ih (acc ++ sep ++ y)
    refine ⟨sep ++ (y ++ r), ?_⟩
    show String.intercalate.go (acc ++ sep ++ y) sep t = _
    rw [hr, String.append_assoc, String.append_assoc]

/-- Every member of the list appears verbatim inside String.intercalate.go. -/
theorem intercalate_go_decomp (sep x : String) :
    ∀ (l : List String) (acc : String), x ∈ l →
      ∃ a b, String.intercalate.go acc sep l = a ++ x ++ b := by
  intro l
  induction l with
  | nil => intro acc hx; cases hx
  | cons y t ih =>
    intro acc hx
    cases hx with
    | head =>
      obtain ⟨r, hr⟩ := intercalate_go_acc sep t (acc ++ sep ++ x)
      exact ⟨acc ++ sep, r, hr⟩
    | tail _ hmem =>
      exact ih (acc ++ sep ++ y) hmem

/-- Every member of the list appears verbatim inside String.intercalate. -/
theorem intercalate_decomp (sep x : String) (l : List String) (hx : x ∈ l) :
    ∃ a b, String.intercalate sep l = a ++ x ++ b := by
  cases l with
  | nil => cases hx
  | cons y t =>
    cases hx with
    | head =>
      obtain ⟨r, hr⟩ := intercalate_go_acc sep t x
      exact ⟨"", r, by
        show String.intercalate.go x sep t = _
        rw [hr, String.empty_append]⟩
    | tail _ hmem =>
      exact intercalate_go_decomp sep x t y hmem

/-- Unfolding of extractEvents on a cons cell. -/
theorem extractEvents_cons {Index : Type}
    (extract_text_from_pdf : File → String) (f : File) (fs : List File) :
    (extractEvents extract_text_from_pdf (f :: fs) : List (Event Index))
      = Event.extractCall f ::
          ((if strip_truthy (extract_text_from_pdf f) then
              ([] : List (Event Index))
            else [Event.warning (noTextWarning f)])
            ++ extractEvents extract_text_from_pdf fs) := by
  simp [extractEvents]

/-- Filtering a mapped list with a predicate false on the range gives []. -/
theorem filter_map_none {α β : Type} (g : α → β) (p : β → Bool)
    (hp : ∀ a, p (g a) = false) : ∀ l : List α, (l.map g).filter p = [] := by
  intro l
  induction l with
  | nil => rfl
  | cons a t ih => simp [List.filter_cons, hp, ih]

/-- Filtering a mapped list with a predicate true on the range keeps it. -/
theorem filter_map_all {α β : Type} (g : α → β) (p : β → Bool)
    (hp : ∀ a, p (g a) = true) : ∀ l : List α, (l.map g).filter p = l.map g := by
  intro l
  induction l with
  | nil => rfl
  | cons a t ih => simp [List.filter_cons, hp, ih]

/-- The extraction loop emits nothing but extraction calls and warnings. -/
theorem extractEvents_filter_none {Index : Type} (p : Event Index → Bool)
    (hp1 : ∀ f, p (Event.extractCall f) = false)
    (hp2 : ∀ m, p (Event.warning m) = false)
    (extract_text_from_pdf : File → String) :
    ∀ files : List File,
      (extractEvents extract_text_from_pdf files).filter p = [] := by
  intro files
  induction files with
  | nil => rfl
  | cons f fs ih =>
    by_cases h : strip_truthy (extract_text_from_pdf f) <;>
      simp [extractEvents_cons, List.filter_cons, List.filter_append,
        h, hp1, hp2, ih]

/-- The warnings of the extraction loop are exactly one warning per skipped
file, in upload order. -/
theorem extractEvents_filter_isWarning {Index : Type}
    (extract_text_from_pdf : File → String) :
    ∀ files : List File,
      ((extractEvents extract_text_from_pdf files : List (Event Index)).filter
          Event.isWarning)
        = (files.filter
            (fun f => !(strip_truthy (extract_text_from_pdf f)))).map
            (fun f => Event.warning (noTextWarning f)) := by
  intro files
  induction files with
  | nil => rfl
  | cons f fs ih =>
    by_cases h : strip_truthy (extract_text_from_pdf f) <;>
      simp [extractEvents_cons, List.filter_cons, List.filter_append,
        h, Event.isWarning, ih]

/-- The extraction loop calls the extraction black box on every uploaded
file, in upload order. -/
theorem extractEvents_filter_isExtractCall {Index : Type}
    (extract_text_from_pdf : File → String) :
    ∀ files : List File,
      ((extractEvents extract_text_from_pdf files : List (Event Index)).filter
          Event.isExtractCall)
        = files.map Event.extractCall := by
  intro files
  induction files with
  | nil => rfl
  | cons f fs ih =>
    by_cases h : strip_truthy (extract_text_from_pdf f) <;>
      simp [extractEvents_cons, List.filter_cons, List.filter_append,
        h, Event.isExtractCall, Event.isWarning, ih]

/-- Every event of the extraction loop is an extraction call or a warning. -/
theorem mem_extractEvents_shape {Index : Type}
    (extract_text_from_pdf : File → String) (files : List File)
    (e : Event Index) :
    e ∈ extractEvents extract_text_from_pdf files →
      (∃ f, e = Event.extractCall f) ∨ ∃ m, e = Event.warning m := by
  induction files with
  | nil => intro he; cases he
  | cons f fs ih =>
    intro he
    rw [extractEvents_cons] at he
    rcases List.mem_cons.mp he with h1 | h2
    · exact Or.inl ⟨f, h1⟩
    · rcases List.mem_append.mp h2 with h3 | h4
      · by_cases hs : strip_truthy (extract_text_from_pdf f)
        · rw [if_pos hs] at h3; cases h3
        · rw [if_neg hs] at h3
          rcases List.mem_cons.mp h3 with h5 | h6
          · exact Or.inr ⟨noTextWarning f, h5⟩
          · cases h6
      · exact ih h4

/-- The resulting state of a Process Documents action, by cases on whether
any text was kept. -/
theorem process_documents_fst {Index : Type}
    (extract_text_from_pdf : File → String) (split_text : String → List String)
    (from_texts : List String → Index) (files : List File)
    (st : SessionState Index) :
    (process_documents extract_text_from_pdf split_text from_texts files st).1
      = if (all_texts_of extract_text_from_pdf files).isEmpty then st
        else { st with
          vectorstore := some (create_faiss_index from_texts
            (chunks_of extract_text_from_pdf split_text files)) } := by
  by_cases h : (all_texts_of extract_text_from_pdf files).isEmpty <;>
    simp [process_documents, h]

/-- The trace of a Process Documents action, by cases on whether any text
was kept. -/
theorem process_documents_trace {Index : Type}
    (extract_text_from_pdf : File → String) (split_text : String → List String)
    (from_texts : List String → Index) (files : List File)
    (st : SessionState Index) :
    (process_documents extract_text_from_pdf split_text from_texts files st).2
      = extractEvents extract_text_from_pdf files
          ++ (if (all_texts_of extract_text_from_pdf files).isEmpty then
                [Event.error noValidTextError]
              else
                (all_texts_of extract_text_from_pdf files).map Event.splitCall
                  ++ [Event.indexCall
                        (chunks_of extract_text_from_pdf split_text files),
                      Event.success processedSuccess]) := by
  by_cases h : (all_texts_of extract_text_from_pdf files).isEmpty <;>
    simp [process_documents, h, List.append_assoc]

/-!
Claim theorems.
-/

/-- C10: The Clear Chat action sets the message log to the empty list and
changes nothing else in the session state; in particular the vector-index
reference is left unchanged. -/
theorem c10_clear_chat_only_empties_messages {Index : Type}
    (st : SessionState Index) :
    (clear_chat st).messages = [] ∧ (clear_chat st).vectorstore = st.vectorstore :=
  ⟨rfl, rfl⟩

/-- C7: At the start of every fresh session the message log is initialized to
the empty list and the vector-index reference to None; this session store is
the only home of the state in the embedding, so nothing survives a restart
(a restart starts from init_session_state again). -/
theorem c7_fresh_session_initial_state (Index : Type) :
    (init_session_state Index).messages = []
      ∧ (init_session_state Index).vectorstore = none :=
  ⟨rfl, rfl⟩

/-- C9: A question submitted while the vector-index reference is None still
appends the user message to the log, but appends no assistant message,
performs no similarity search, never calls the generation API, and only
shows a warning. -/
theorem c9_question_without_index {Index : Type}
    (similarity_search : Index → String → Nat → List Doc)
    (generate_content : String → String) (q ts : String)
    (st : SessionState Index) (h : st.vectorstore = none) :
    (chat_handler similarity_search generate_content q ts st).1.messages
        = st.messages ++ [⟨"user", q, ts⟩]
    ∧ (chat_handler similarity_search generate_content q ts st).1.vectorstore
        = st.vectorstore
    ∧ (chat_handler similarity_search generate_content q ts st).2
        = [Event.warning noIndexWarning] := by
  simp [chat_handler, h]

/-- Closed instance of c9_question_without_index at a concrete session. -/
theorem c9_witness :
    (chat_handler (fun (_ : Nat) (_ : String) (_ : Nat) => ([] : List Doc))
        (fun p => p) "What is my dosage" "10:00" ⟨[], none⟩).1.messages
      = [⟨"user", "What is my dosage", "10:00"⟩]
    ∧ (chat_handler (fun (_ : Nat) (_ : String) (_ : Nat) => ([] : List Doc))
        (fun p => p) "What is my dosage" "10:00"
        (⟨[], none⟩ : SessionState Nat)).2 = [Event.warning noIndexWarning] := by
  have h := c9_question_without_index
    (fun (_ : Nat) (_ : String) (_ : Nat) => ([] : List Doc)) (fun p => p)
    "What is my dosage" "10:00" ⟨[], none⟩ rfl
  exact ⟨by rw [h.1]; rfl, h.2.2⟩

/-- C8: A Process Documents action that finds no non-whitespace text in any
uploaded file leaves the session state unchanged (the vector-index reference
keeps its previous value and the message log is untouched) and its trace is
the extraction events followed by exactly the error message. -/
theorem c8_no_valid_text_leaves_state_unchanged {Index : Type}
    (extract_text_from_pdf : File → String) (split_text : String → List String)
    (from_texts : List String → Index) (files : List File)
    (st : SessionState Index)
    (h : all_texts_of extract_text_from_pdf files = []) :
    (process_documents extract_text_from_pdf split_text from_texts files st).1
        = st
    ∧ (process_documents extract_text_from_pdf split_text from_texts files st).2
        = extractEvents extract_text_from_pdf files
            ++ [Event.error noValidTextError] := by
  constructor <;> simp [process_documents, h]

/-- Closed instance of c8_no_valid_text_leaves_state_unchanged: a previously
built index (here the value 5) survives a failed processing action. -/
theorem c8_witness :
    (process_documents (fun f => f.data) (fun t => [t]) (fun _ => (0 : Nat))
        [⟨"e.pdf", ""⟩] ⟨[⟨"user", "hi", "09:00"⟩], some 5⟩).1
      = ⟨[⟨"user", "hi", "09:00"⟩], some 5⟩ :=
  (c8_no_valid_text_leaves_state_unchanged (fun f => f.data) (fun t => [t])
    (fun _ => (0 : Nat)) [⟨"e.pdf", ""⟩] ⟨[⟨"user", "hi", "09:00"⟩], some 5⟩
    (by decide)).1

/-- C3: Within one question-answer interaction the chat handler only appends
to the message log: the user record (role "user") first, then, when an
answer is produced, the assistant record (role "assistant"); each record
carries exactly role, content and timestamp (the Message structure), and a
Process Documents action never touches the log. -/
theorem c3_message_log_append_only {Index : Type}
    (similarity_search : Index → String → Nat → List Doc)
    (generate_content : String → String) (q ts : String)
    (extract_text_from_pdf : File → String) (split_text : String → List String)
    (from_texts : List String → Index) (files : List File)
    (st : SessionState Index) :
    (∃ tail,
        (chat_handler similarity_search generate_content q ts st).1.messages
          = st.messages ++ tail
      ∧ ((∃ resp, tail = [⟨"user", q, ts⟩, ⟨"assistant", resp, ts⟩])
          ∨ tail = [⟨"user", q, ts⟩]))
    ∧ (process_documents extract_text_from_pdf split_text from_texts files
        st).1.messages = st.messages := by
  constructor
  · cases hv : st.vectorstore with
    | none =>
      exact ⟨[⟨"user", q, ts⟩], by simp [chat_handler, hv], Or.inr rfl⟩
    | some vs =>
      refine ⟨[⟨"user", q, ts⟩,
        ⟨"assistant", generate_response generate_content
          (build_system_prompt (context_of
            (retrieve_relevant_docs similarity_search vs q)) q), ts⟩],
        ?_, Or.inl ⟨_, rfl⟩⟩
      simp [chat_handler, hv]
  · by_cases h : (all_texts_of extract_text_from_pdf files).isEmpty <;>
      simp [process_documents, h]

/-- C4: During a Process Documents action every uploaded file whose extracted
text is empty or whitespace-only draws a user-facing warning naming it (the
warnings are exactly one per skipped file, in upload order, so processing of
the remaining files continues); an error is shown exactly when no uploaded
file yields non-whitespace text, in which case the state is untouched and no
index is built; otherwise the index is stored and a success banner is the
only other status message. -/
theorem c4_skip_warning_and_error_handling {Index : Type}
    (extract_text_from_pdf : File → String) (split_text : String → List String)
    (from_texts : List String → Index) (files : List File)
    (st : SessionState Index) :
    ((process_documents extract_text_from_pdf split_text from_texts files
        st).2.filter Event.isWarning
      = (files.filter
          (fun f => !(strip_truthy (extract_text_from_pdf f)))).map
          (fun f => Event.warning (noTextWarning f)))
    ∧ ((process_documents extract_text_from_pdf split_text from_texts files
        st).2.filter Event.isError
      = if (all_texts_of extract_text_from_pdf files).isEmpty
        then [Event.error noValidTextError] else [])
    ∧ ((all_texts_of extract_text_from_pdf files).isEmpty = true →
        (process_documents extract_text_from_pdf split_text from_texts files
          st).1 = st)
    ∧ ((all_texts_of extract_text_from_pdf files).isEmpty = false →
        (process_documents extract_text_from_pdf split_text from_texts files
            st).1.vectorstore
          = some (create_faiss_index from_texts
              (chunks_of extract_text_from_pdf split_text files))
        ∧ (process_documents extract_text_from_pdf split_text from_texts files
            st).2.filter Event.isSuccess = [Event.success processedSuccess]) := by
  refine ⟨?_, ?_, ?_, ?_⟩
  · rw [process_documents_trace, List.filter_append,
      extractEvents_filter_isWarning]
    by_cases h : (all_texts_of extract_text_from_pdf files).isEmpty
    · rw [if_pos h]; simp [Event.isWarning, Event.isError, Event.isExtractCall,
        Event.isSplitCall, Event.isIndexCall, Event.isSuccess,
        Event.isSimSearch, Event.isLlmCall]
    · rw [if_neg h, List.filter_append,
        filter_map_none Event.splitCall Event.isWarning (fun _ => rfl)]
      simp [Event.isWarning, Event.isError, Event.isExtractCall,
        Event.isSplitCall, Event.isIndexCall, Event.isSuccess,
        Event.isSimSearch, Event.isLlmCall]
  · rw [process_documents_trace, List.filter_append,
      extractEvents_filter_none Event.isError (fun _ => rfl) (fun _ => rfl)]
    by_cases h : (all_texts_of extract_text_from_pdf files).isEmpty
    · rw [if_pos h, if_pos h]; simp [Event.isWarning, Event.isError, Event.isExtractCall,
        Event.isSplitCall, Event.isIndexCall, Event.isSuccess,
        Event.isSimSearch, Event.isLlmCall]
    · rw [if_neg h, if_neg h, List.filter_append,
        filter_map_none Event.splitCall Event.isError (fun _ => rfl)]
      simp [Event.isWarning, Event.isError, Event.isExtractCall,
        Event.isSplitCall, Event.isIndexCall, Event.isSuccess,
        Event.isSimSearch, Event.isLlmCall]
  · intro h
    rw [process_documents_fst, if_pos h]
  · intro h
    constructor
    · rw [process_documents_fst, if_neg (by simp [h])]
    · rw [process_documents_trace, List.filter_append,
        extractEvents_filter_none Event.isSuccess (fun _ => rfl) (fun _ => rfl),
        if_neg (by simp [h]), List.filter_append,
        filter_map_none Event.splitCall Event.isSuccess (fun _ => rfl)]
      simp [Event.isWarning, Event.isError, Event.isExtractCall,
        Event.isSplitCall, Event.isIndexCall, Event.isSuccess,
        Event.isSimSearch, Event.isLlmCall]

/-- Closed instance of c4_skip_warning_and_error_handling: one good file and
one empty file give exactly one warning naming the empty file and no error. -/
theorem c4_witness :
    (process_documents (fun f => f.data) (fun t => [t]) (fun c => c.length)
        [⟨"a.pdf", "hello"⟩, ⟨"b.pdf", ""⟩]
        (⟨[], none⟩ : SessionState Nat)).2.filter Event.isWarning
      = [Event.warning (noTextWarning ⟨"b.pdf", ""⟩)]
    ∧ (process_documents (fun f => f.data) (fun t => [t]) (fun c => c.length)
        [⟨"a.pdf", "hello"⟩, ⟨"b.pdf", ""⟩]
        (⟨[], none⟩ : SessionState Nat)).2.filter Event.isError = [] := by
  have h := c4_skip_warning_and_error_handling (fun f => f.data) (fun t => [t])
    (fun c => c.length) [⟨"a.pdf", "hello"⟩, ⟨"b.pdf", ""⟩] ⟨[], none⟩
  refine ⟨?_, ?_⟩
  · rw [h.1]; decide
  · rw [h.2.1]; decide

/-- C5: A Process Documents action performs its steps in a fixed order: the
trace is the extraction events for every uploaded file (in upload order),
then, when any text was kept, one split call per kept text (in file order)
followed by exactly one index-construction call on the full chunk list;
similarity search and generation calls never occur during processing. -/
theorem c5_pipeline_fixed_order {Index : Type}
    (extract_text_from_pdf : File → String) (split_text : String → List String)
    (from_texts : List String → Index) (files : List File)
    (st : SessionState Index) :
    ((process_documents extract_text_from_pdf split_text from_texts files st).2
      = extractEvents extract_text_from_pdf files
          ++ (if (all_texts_of extract_text_from_pdf files).isEmpty then
                [Event.error noValidTextError]
              else
                (all_texts_of extract_text_from_pdf files).map Event.splitCall
                  ++ [Event.indexCall
                        (chunks_of extract_text_from_pdf split_text files),
                      Event.success processedSuccess]))
    ∧ ((process_documents extract_text_from_pdf split_text from_texts files
        st).2.filter Event.isExtractCall = files.map Event.extractCall)
    ∧ ((process_documents extract_text_from_pdf split_text from_texts files
        st).2.filter Event.isSplitCall
      = (all_texts_of extract_text_from_pdf files).map Event.splitCall)
    ∧ ((process_documents extract_text_from_pdf split_text from_texts files
        st).2.filter Event.isIndexCall
      = if (all_texts_of extract_text_from_pdf files).isEmpty then []
        else [Event.indexCall
          (chunks_of extract_text_from_pdf split_text files)])
    ∧ ((process_documents extract_text_from_pdf split_text from_texts files
        st).2.filter
          (fun e => e.isSimSearch || e.isLlmCall) = []) := by
  refine ⟨process_documents_trace extract_text_from_pdf split_text from_texts
    files st, ?_, ?_, ?_, ?_⟩
  · rw [process_documents_trace, List.filter_append,
      extractEvents_filter_isExtractCall]
    by_cases h : (all_texts_of extract_text_from_pdf files).isEmpty
    · rw [if_pos h]; simp [Event.isWarning, Event.isError, Event.isExtractCall,
        Event.isSplitCall, Event.isIndexCall, Event.isSuccess,
        Event.isSimSearch, Event.isLlmCall]
    · rw [if_neg h, List.filter_append,
        filter_map_none Event.splitCall Event.isExtractCall (fun _ => rfl)]
      simp [Event.isWarning, Event.isError, Event.isExtractCall,
        Event.isSplitCall, Event.isIndexCall, Event.isSuccess,
        Event.isSimSearch, Event.isLlmCall]
  · rw [process_documents_trace, List.filter_append,
      extractEvents_filter_none Event.isSplitCall (fun _ => rfl) (fun _ => rfl)]
    by_cases h : (all_texts_of extract_text_from_pdf files).isEmpty
    · rw [if_pos h, List.isEmpty_iff.mp h]; simp [Event.isWarning, Event.isError, Event.isExtractCall,
        Event.isSplitCall, Event.isIndexCall, Event.isSuccess,
        Event.isSimSearch, Event.isLlmCall]
    · rw [if_neg h, List.filter_append,
        filter_map_all Event.splitCall Event.isSplitCall (fun _ => rfl)]
      simp [Event.isWarning, Event.isError, Event.isExtractCall,
        Event.isSplitCall, Event.isIndexCall, Event.isSuccess,
        Event.isSimSearch, Event.isLlmCall]
  · rw [process_documents_trace, List.filter_append,
      extractEvents_filter_none Event.isIndexCall (fun _ => rfl) (fun _ => rfl)]
    by_cases h : (all_texts_of extract_text_from_pdf files).isEmpty
    · rw [if_pos h, if_pos h]; simp [Event.isWarning, Event.isError, Event.isExtractCall,
        Event.isSplitCall, Event.isIndexCall, Event.isSuccess,
        Event.isSimSearch, Event.isLlmCall]
    · rw [if_neg h, if_neg h, List.filter_append,
        filter_map_none Event.splitCall Event.isIndexCall (fun _ => rfl)]
      simp [Event.isWarning, Event.isError, Event.isExtractCall,
        Event.isSplitCall, Event.isIndexCall, Event.isSuccess,
        Event.isSimSearch, Event.isLlmCall]
  · rw [process_documents_trace, List.filter_append,
      extractEvents_filter_none (fun e => e.isSimSearch || e.isLlmCall)
        (fun _ => rfl) (fun _ => rfl)]
    by_cases h : (all_texts_of extract_text_from_pdf files).isEmpty
    · rw [if_pos h]; simp [Event.isWarning, Event.isError, Event.isExtractCall,
        Event.isSplitCall, Event.isIndexCall, Event.isSuccess,
        Event.isSimSearch, Event.isLlmCall]
    · rw [if_neg h, List.filter_append,
        filter_map_none Event.splitCall (fun e => e.isSimSearch || e.isLlmCall)
          (fun _ => rfl)]
      simp [Event.isWarning, Event.isError, Event.isExtractCall,
        Event.isSplitCall, Event.isIndexCall, Event.isSuccess,
        Event.isSimSearch, Event.isLlmCall]

/-- C6: retrieve_relevant_docs is exactly one delegated call to the index's
similarity search with the query and result passed through unmodified; its k
parameter defaults to 4, the chat flow calls it without overriding k (the
search event carries k = 4), and when the black-box search honors k the
context of every answer is built from at most 4 retrieved chunks. -/
theorem c6_retrieval_delegation_and_k {Index : Type}
    (similarity_search : Index → String → Nat → List Doc)
    (generate_content : String → String) (vs : Index) (q ts : String) (k : Nat)
    (st : SessionState Index) (hst : st.vectorstore = some vs)
    (hk : ∀ (i : Index) (s : String) (n : Nat),
        (similarity_search i s n).length ≤ n) :
    retrieve_relevant_docs similarity_search vs q k = similarity_search vs q k
    ∧ retrieve_relevant_docs similarity_search vs q = similarity_search vs q 4
    ∧ (chat_handler similarity_search generate_content q ts st).2.filter
        Event.isSimSearch = [Event.simSearch q 4]
    ∧ (retrieve_relevant_docs similarity_search vs q).length ≤ 4 := by
  refine ⟨rfl, rfl, ?_, hk vs q 4⟩
  simp [chat_handler, hst, List.filter_cons, Event.isSimSearch]

/-- Closed instance of c6_retrieval_delegation_and_k. -/
theorem c6_witness :
    retrieve_relevant_docs
        (fun (_ : Nat) (_ : String) (_ : Nat) => ([] : List Doc)) 0 "q" 2
      = (fun (_ : Nat) (_ : String) (_ : Nat) => ([] : List Doc)) 0 "q" 2
    ∧ (retrieve_relevant_docs
        (fun (_ : Nat) (_ : String) (_ : Nat) => ([] : List Doc)) 0 "q").length
      ≤ 4 := by
  have h := c6_retrieval_delegation_and_k
    (fun (_ : Nat) (_ : String) (_ : Nat) => ([] : List Doc)) (fun p => p)
    0 "q" "10:00" 2 ⟨[], some 0⟩ rfl (fun _ _ _ => by simp)
  exact ⟨h.1, h.2.2.2⟩

/-- C1: A question submitted while an index is present is answered by first
searching the index with the question as the query and then calling the
generation API exactly once; the string passed to the generation call is the
formatted system prompt unchanged (generate_response gets no user_prompt, so
nothing is appended), and that prompt contains the joined page_content of
every retrieved chunk and the question text verbatim. -/
theorem c1_chat_single_llm_call_with_context_and_question {Index : Type}
    (similarity_search : Index → String → Nat → List Doc)
    (generate_content : String → String) (q ts : String)
    (st : SessionState Index) (vs : Index) (h : st.vectorstore = some vs) :
    (chat_handler similarity_search generate_content q ts st).2
        = [Event.simSearch q 4,
           Event.llmCall (build_system_prompt
             (context_of (retrieve_relevant_docs similarity_search vs q)) q)]
    ∧ combined_prompt (build_system_prompt
          (context_of (retrieve_relevant_docs similarity_search vs q)) q) none
        = build_system_prompt
            (context_of (retrieve_relevant_docs similarity_search vs q)) q
    ∧ (∃ a b, build_system_prompt
          (context_of (retrieve_relevant_docs similarity_search vs q)) q
        = a ++ q ++ b)
    ∧ ∀ d ∈ retrieve_relevant_docs similarity_search vs q,
        ∃ a b, build_system_prompt
            (context_of (retrieve_relevant_docs similarity_search vs q)) q
          = a ++ d.page_content ++ b := by
  refine ⟨?_, rfl, ?_, ?_⟩
  · simp [chat_handler, h, combined_prompt]
  · exact ⟨systemPromptPre
        ++ context_of (retrieve_relevant_docs similarity_search vs q)
        ++ systemPromptMid, systemPromptPost, rfl⟩
  · intro d hd
    obtain ⟨a, b, hab⟩ := intercalate_decomp "\n\n" d.page_content
      ((retrieve_relevant_docs similarity_search vs q).map Doc.page_content)
      (List.mem_map_of_mem _ hd)
    refine ⟨systemPromptPre ++ a,
      b ++ systemPromptMid ++ q ++ systemPromptPost, ?_⟩
    simp only [build_system_prompt, context_of]
    rw [hab]
    simp [String.append_assoc]

/-- Closed instance of c1_chat_single_llm_call_with_context_and_question:
two retrieved chunks make a two-call trace whose single generation call
carries the formatted prompt, and the prompt contains the question. -/
theorem c1_witness :
    (chat_handler
        (fun (_ : Nat) (_ : String) (_ : Nat) =>
          [⟨"chunk one"⟩, ⟨"chunk two"⟩])
        (fun p => p) "my question" "10:00"
        (⟨[], some 3⟩ : SessionState Nat)).2
      = [Event.simSearch "my question" 4,
         Event.llmCall (build_system_prompt
           (context_of [⟨"chunk one"⟩, ⟨"chunk two"⟩]) "my question")]
    ∧ ∃ a b, build_system_prompt
          (context_of [⟨"chunk one"⟩, ⟨"chunk two"⟩]) "my question"
        = a ++ "my question" ++ b := by
  have h := c1_chat_single_llm_call_with_context_and_question
    (fun (_ : Nat) (_ : String) (_ : Nat) => [⟨"chunk one"⟩, ⟨"chunk two"⟩])
    (fun p => p) "my question" "10:00" ⟨[], some 3⟩ 3 rfl
  exact ⟨h.1, h.2.2.1⟩

/-- C2 fails as stated: a Process Documents action on a single
whitespace-only file does not replace the previous index; the reference
keeps the old index (here 7) instead of an index built from the current
uploads' (empty) chunk list. -/
theorem c2_counterexample :
    (process_documents (fun f => f.data) (fun t => [t])
        (fun c => c.length + 1) [⟨"blank.pdf", "   "⟩]
        (⟨[], some 7⟩ : SessionState Nat)).1.vectorstore = some 7
    ∧ (process_documents (fun f => f.data) (fun t => [t])
        (fun c => c.length + 1) [⟨"blank.pdf", "   "⟩]
        (⟨[], some 7⟩ : SessionState Nat)).1.vectorstore
      ≠ some (create_faiss_index (fun c => c.length + 1)
          (chunks_of (fun f => f.data) (fun t => [t])
            [⟨"blank.pdf", "   "⟩])) := by
  exact ⟨by decide, by decide⟩

/-- C2 (amended): on every Process Documents action in which at least one
uploaded file yields non-whitespace text, the session's vector-index
reference is replaced wholesale by a new index built only from the chunks of
the currently uploaded files; the replacement is independent of the previous
session state, so no content of a previously built index is carried over. -/
theorem c2_index_rebuilt_wholesale {Index : Type}
    (extract_text_from_pdf : File → String) (split_text : String → List String)
    (from_texts : List String → Index) (files : List File)
    (st : SessionState Index)
    (h : (all_texts_of extract_text_from_pdf files).isEmpty = false) :
    (process_documents extract_text_from_pdf split_text from_texts files
        st).1.vectorstore
      = some (create_faiss_index from_texts
          (chunks_of extract_text_from_pdf split_text files))
    ∧ ∀ st' : SessionState Index,
        (process_documents extract_text_from_pdf split_text from_texts files
            st).1.vectorstore
          = (process_documents extract_text_from_pdf split_text from_texts
              files st').1.vectorstore := by
  constructor
  · rw [process_documents_fst, if_neg (by simp [h])]
  · intro st'
    rw [process_documents_fst, process_documents_fst,
      if_neg (by simp [h]), if_neg (by simp [h])]

/-- Closed instance of c2_index_rebuilt_wholesale: processing one good file
over a session that already holds index 7 installs exactly the index built
from the current chunks. -/
theorem c2_witness :
    (process_documents (fun f => f.data) (fun t => [t]) (fun c => c.length)
        [⟨"a.pdf", "hello"⟩] (⟨[], some 7⟩ : SessionState Nat)).1.vectorstore
      = some (create_faiss_index (fun c => c.length)
          (chunks_of (fun f => f.data) (fun t => [t]) [⟨"a.pdf", "hello"⟩])) :=
  (c2_index_rebuilt_wholesale (fun f => f.data) (fun t => [t])
    (fun c => c.length) [⟨"a.pdf", "hello"⟩] ⟨[], some 7⟩ (by decide)).1

end MediChat
